import Mathlib

/-! Verification of the conversation-orchestrator core of the IRIS Symphony
OSHA backend (src/backend/src/semantic_kernel_orchestrator.py): the routing
functions, the custom group chat manager, and the retry harness
process_message, shallowly embedded as pure Lean functions. -/

namespace Orchestrator

/-- JSON values as returned by json.loads: null models Python None, num models
ints and floats (as rationals), obj models dicts with keys in insertion
order. -/
inductive Json where
  | null : Json
  | bool : Bool → Json
  | num : ℚ → Json
  | str : String → Json
  | arr : List Json → Json
  | obj : List (String × Json) → Json

/-- Python d.get(key, default): the stored value, or the default when the key
is absent; a non-dict receiver raises AttributeError, modelled as error. -/
def Json.pyGet (j : Json) (key : String) (default : Json) : Except Unit Json :=
  match j with
  | .obj fields => Except.ok ((List.lookup key fields).getD default)
  | _ => Except.error ()

/-- Python x[key] with a string key: KeyError on a dict without the key,
TypeError on any non-dict receiver; both modelled as error. -/
def Json.pyIdx (j : Json) (key : String) : Except Unit Json :=
  match j with
  | .obj fields =>
    match List.lookup key fields with
    | some v => Except.ok v
    | none => Except.error ()
  | _ => Except.error ()

/-- Python x[i] with an integer index: lists index their elements, strings
index their characters, anything else raises TypeError. -/
def Json.pyAt (j : Json) (i : Nat) : Except Unit Json :=
  match j with
  | .arr xs =>
    match xs[i]? with
    | some v => Except.ok v
    | none => Except.error ()
  | .str s =>
    match s.data[i]? with
    | some ch => Except.ok (Json.str (String.mk [ch]))
    | none => Except.error ()
  | _ => Except.error ()

/-- Numeric view taken when a loaded value is compared against a float
threshold: numbers compare as themselves, booleans as 0 or 1 (Python bool is
an int subclass); comparing any other value with a float raises TypeError. -/
def Json.pyToQ (j : Json) : Except Unit ℚ :=
  match j with
  | .num q => Except.ok q
  | .bool b => Except.ok (if b then 1 else 0)
  | _ => Except.error ()

/-- Python == between a loaded value and a string literal: only a string can
compare equal to a string. -/
def Json.isStrEq (j : Json) (s : String) : Bool :=
  match j with
  | .str t => t == s
  | _ => false

/-- The string view of a joined element, for str.join. -/
def Json.asStr (j : Json) : Option String :=
  match j with
  | .str s => some s
  | _ => none

/-- Python sep.join(x): joins a string (over its characters), a list whose
elements are all strings, or a dict (over its keys, which are strings for
loaded JSON); any other receiver or element raises TypeError. -/
def pyJoin (sep : String) (j : Json) : Except Unit String :=
  match j with
  | .str s => Except.ok (String.intercalate sep (s.data.map (fun ch => String.mk [ch])))
  | .arr xs =>
    match xs.mapM Json.asStr with
    | some ss => Except.ok (String.intercalate sep ss)
    | none => Except.error ()
  | .obj fields => Except.ok (String.intercalate sep (fields.map (fun kv => kv.fst)))
  | _ => Except.error ()

/-- A message content string together with the outcome of json.loads on it:
parsed = none models a string on which json.loads raises JSONDecodeError,
parsed = some j a string that loads as j. The textual JSON parser is library
code external to the orchestrator, so each content value carries its parse
outcome rather than re-deriving it from the raw text. -/
structure Content where
  raw : String
  parsed : Option Json

/-- json.loads applied to a content value. -/
def loads (c : Content) : Except Unit Json :=
  match c.parsed with
  | some j => Except.ok j
  | none => Except.error ()

/-- A chat message: role is "user" for user turns and "assistant" for agent
turns; name is the producing agent (none for user messages). -/
structure ChatMessageContent where
  role : String
  name : Option String
  content : Content

structure StringResult where
  result : Option String
  reason : String

structure BooleanResult where
  result : Bool
  reason : String

structure MessageResult where
  result : ChatMessageContent
  reason : String

/-- The two module-level confidence thresholds, read from the environment once
at import time (CLU_CONFIDENCE_THRESHOLD, default 0.7, and CQA_CONFIDENCE,
default 0.8) and constant for the life of the process. -/
structure OrchConfig where
  confidence_threshold : ℚ
  cqa_confidence : ℚ

def defaultConfig : OrchConfig :=
  { confidence_threshold := 7 / 10, cqa_confidence := 4 / 5 }

/-- next((agent for agent in participant_descriptions.keys() if agent == name), None);
the participant registry is modelled by its ordered key list. -/
def findAgent (keys : List String) (name : String) : Option String :=
  keys.find? (fun a => a == name)

/-- The four SAGE domain responder names: the valid_agents list of
route_lumi_message; the same four literals also guard the SAGE branch of
select_next_agent. -/
def valid_agents : List String :=
  ["SciencesAgent", "GovernanceAgent", "AnalyticsAgent", "ExperienceAgent"]

/-- The seven participant names registered by initialize_agents, in order. -/
def agentKeys : List String :=
  ["TranslationAgent", "TriageAgent", "Lumi",
   "SciencesAgent", "GovernanceAgent", "AnalyticsAgent", "ExperienceAgent"]

/- Reason strings returned by the routing functions. Interpolated exception
text is modelled by a fixed representative suffix, and apostrophes of the
source text are dropped; nothing in the development depends on the exact
characters of these strings. -/

def initialTranslationReason : String := "Routing to TranslationAgent for initial translation."

def triageRoutingReason : String := "Routing to TriageAgent for intent classification."

def cqaHighReason : String := "Routing to TranslationAgent for final translation of CQA answer."

def cqaLowReason : String := "Low CQA confidence, routing to Lumi for deeper analysis."

def cluHighReason : String := "Routing to Lumi for IRI domain agent selection."

def cluLowReason : String := "Low CLU confidence, Lumi will request clarification."

def sageRoutingReason : String := "Routing to TranslationAgent for final translation."

def finalTranslationReason : String := "Final translation complete."

def noRoutingReason : String := "No valid routing logic found."

def translationErrorReason : String := "Error routing to TriageAgent: exception"

def triageErrorReason : String := "Error processing TriageAgent message."

def lumiErrorReason : String := "Error processing Lumi message."

def sageErrorReason : String := "Error processing SAGE agent message."

def cluRouteReasons : List String := [cluHighReason, cluLowReason]

def routingErrorReasons : List String :=
  [translationErrorReason, triageErrorReason, lumiErrorReason, sageErrorReason]

/-- route_user_message: route the initial user message to the
TranslationAgent. The try block contains only the generator expression over
the registry keys, which cannot raise, so the except arm is unreachable. -/
def route_user_message (keys : List String) : StringResult :=
  { result := findAgent keys "TranslationAgent"
    reason := initialTranslationReason }

/-- route_translation_message: parse the translated message (reading its
response field) and route to the TriageAgent; any exception yields a result
of none with an error reason. -/
def route_translation_message (last_message : ChatMessageContent) (keys : List String) :
    StringResult :=
  match loads last_message.content with
  | Except.ok parsed =>
    match parsed.pyIdx "response" with
    | Except.ok _ =>
      { result := findAgent keys "TriageAgent", reason := triageRoutingReason }
    | Except.error _ =>
      { result := none, reason := translationErrorReason }
  | Except.error _ =>
    { result := none, reason := translationErrorReason }

/-- The chain parsed["response"]["answers"][0]["confidenceScore"] of the CQA
branch of route_triage_message. -/
def cqaScore (parsed : Json) : Except Unit Json := do
  let r ← parsed.pyIdx "response"
  let a ← r.pyIdx "answers"
  let a0 ← a.pyAt 0
  a0.pyIdx "confidenceScore"

/-- The CQA confidence as compared against the float threshold. -/
def cqaScoreQ (parsed : Json) : Except Unit ℚ := do
  let s ← cqaScore parsed
  s.pyToQ

/-- The chain parsed["response"]["result"]["conversations"][0]["intents"][0]
of the CLU branch of route_triage_message. -/
def cluTopIntent (parsed : Json) : Except Unit Json := do
  let r ← parsed.pyIdx "response"
  let res ← r.pyIdx "result"
  let cs ← res.pyIdx "conversations"
  let c0 ← cs.pyAt 0
  let is ← c0.pyIdx "intents"
  is.pyAt 0

/-- The CLU branch reads the intent name first, then the confidence, then
compares the confidence against the float threshold; a failure at any step is
an exception. -/
def cluScoreQ (parsed : Json) : Except Unit ℚ := do
  let i0 ← cluTopIntent parsed
  let _name ← i0.pyIdx "name"
  let i0b ← cluTopIntent parsed
  let s ← i0b.pyIdx "confidenceScore"
  s.pyToQ

/-- route_triage_message: CQA results route to the TranslationAgent when the
top answer confidence reaches the CQA threshold and to Lumi otherwise; CLU
results route to Lumi on both sides of the CLU threshold; any exception
yields a result of none with an error reason. When the payload parses but its
type is neither cqa_result nor clu_result, the source falls off the end of
the try block and the function returns Python None (no StringResult at all),
modelled as the outer none. -/
def route_triage_message (cfg : OrchConfig) (last_message : ChatMessageContent)
    (keys : List String) : Option StringResult :=
  match loads last_message.content with
  | Except.error _ => some { result := none, reason := triageErrorReason }
  | Except.ok parsed =>
    match parsed.pyGet "type" Json.null with
    | Except.error _ => some { result := none, reason := triageErrorReason }
    | Except.ok t =>
      if t.isStrEq "cqa_result" then
        match cqaScoreQ parsed with
        | Except.error _ => some { result := none, reason := triageErrorReason }
        | Except.ok confidence =>
          if cfg.cqa_confidence ≤ confidence then
            some { result := findAgent keys "TranslationAgent", reason := cqaHighReason }
          else
            some { result := findAgent keys "Lumi", reason := cqaLowReason }
      else if t.isStrEq "clu_result" then
        match cluScoreQ parsed with
        | Except.error _ => some { result := none, reason := triageErrorReason }
        | Except.ok confidence =>
          if cfg.confidence_threshold ≤ confidence then
            some { result := findAgent keys "Lumi", reason := cluHighReason }
          else
            some { result := findAgent keys "Lumi", reason := cluLowReason }
      else
        none

/-- The print events of route_lumi_message, kept structurally: the routing
line, the unknown-target substitution line, and the error line. -/
inductive LumiLog where
  | routing : Json → Json → LumiLog
  | substitution : Json → LumiLog
  | failure : LumiLog

/-- The result of route_lumi_message together with its printed log lines. -/
structure LumiOutcome where
  result : StringResult
  logs : List LumiLog

/-- The tail of route_lumi_message: the return statement joins the iri_domains
value into the reason string, so an unjoinable value raises there and is
caught, yielding a result of none even after a successful target lookup. -/
def lumiFinish (keys : List String) (target : String) (iri : Json) (logs : List LumiLog) :
    LumiOutcome :=
  match pyJoin ", " iri with
  | Except.ok joined =>
    { result := { result := findAgent keys target
                  reason := "Routing to " ++ target ++ " for " ++ joined ++ " domain expertise." }
      logs := logs }
  | Except.error _ =>
    { result := { result := none, reason := lumiErrorReason }
      logs := logs ++ [LumiLog.failure] }

/-- route_lumi_message: read target_agent (default None) and iri_domains
(default []) from the payload, print the routing line, substitute
GovernanceAgent for any target that is not one of the four valid agents
(printing the substitution), and look the target up in the registry; any
exception yields a result of none with an error reason. -/
def route_lumi_message (last_message : ChatMessageContent) (keys : List String) :
    LumiOutcome :=
  match loads last_message.content with
  | Except.error _ =>
    { result := { result := none, reason := lumiErrorReason }, logs := [LumiLog.failure] }
  | Except.ok parsed =>
    match parsed with
    | Json.obj fields =>
      let target_agent := (List.lookup "target_agent" fields).getD Json.null
      let iri_domains := (List.lookup "iri_domains" fields).getD (Json.arr [])
      let log0 := LumiLog.routing target_agent iri_domains
      match target_agent with
      | Json.str s =>
        if s ∈ valid_agents then
          lumiFinish keys s iri_domains [log0]
        else
          lumiFinish keys "GovernanceAgent" iri_domains
            [log0, LumiLog.substitution target_agent]
      | _ =>
        lumiFinish keys "GovernanceAgent" iri_domains
          [log0, LumiLog.substitution target_agent]
    | _ =>
      { result := { result := none, reason := lumiErrorReason }, logs := [LumiLog.failure] }

/-- route_sage_agent_message: parse the response (two .get reads on the dict)
and route back to the TranslationAgent; any exception yields a result of none
with an error reason. -/
def route_sage_agent_message (last_message : ChatMessageContent) (keys : List String) :
    StringResult :=
  match loads last_message.content with
  | Except.ok (Json.obj _) =>
    { result := findAgent keys "TranslationAgent", reason := sageRoutingReason }
  | _ => { result := none, reason := sageErrorReason }

/-- The sentinel message content built by filter_results on an empty history;
the sentence is not valid JSON. -/
def noMessagesContent : Content :=
  { raw := "No messages in chat history.", parsed := none }

def lastResponseReason : String := "Returning the last agent response."

/-- CustomGroupChatManager.filter_results: an assistant message with a fixed
sentence on an empty history, otherwise an assistant message carrying the
last message content unchanged. Every operation in the source (the truthiness
test, the [-1] index guarded by it, and attribute reads) is total, so the
function never raises. -/
def filter_results (chat_history : List ChatMessageContent) : MessageResult :=
  match chat_history.getLast? with
  | none =>
    { result := { role := "assistant", name := none, content := noMessagesContent }
      reason := "Chat history is empty." }
  | some last_message =>
    { result := { role := "assistant", name := none, content := last_message.content }
      reason := lastResponseReason }

def noUserInput : BooleanResult :=
  { result := false, reason := "No user input required." }

/-- CustomGroupChatManager.should_request_user_input: true exactly when the
latest message parses as a dict whose need_more_info value is the string
"True"; the bare except turns every parse or attribute failure into false.
The function reads the history and returns a BooleanResult without appending
or mutating anything. -/
def should_request_user_input (chat_history : List ChatMessageContent) : BooleanResult :=
  match chat_history.getLast? with
  | none => noUserInput
  | some last_message =>
    match loads last_message.content with
    | Except.error _ => noUserInput
    | Except.ok parsed =>
      match parsed.pyGet "need_more_info" Json.null with
      | Except.error _ => noUserInput
      | Except.ok v =>
        if v.isStrEq "True" then
          { result := true, reason := "Agent needs more information from user." }
        else noUserInput

/-- The membership test last_message.name in the four responder literals of
the SAGE branch of select_next_agent; a user message (name None) fails it. -/
def isSageName (name : Option String) : Bool :=
  match name with
  | some n => decide (n ∈ valid_agents)
  | none => false

/-- CustomGroupChatManager.select_next_agent: dispatch on the latest message.
The format_agent_response call at the top only prints. The TriageAgent branch
returns route_triage_message unchanged, so its Python None (unknown result
type) propagates as the outer none. -/
def select_next_agent (cfg : OrchConfig) (chat_history : List ChatMessageContent)
    (keys : List String) : Option StringResult :=
  match chat_history.getLast? with
  | none => some (route_user_message keys)
  | some last_message =>
    if last_message.role == "user" then
      some (route_user_message keys)
    else if last_message.name == some "TranslationAgent" then
      if 3 < chat_history.length then
        some { result := none, reason := finalTranslationReason }
      else
        some (route_translation_message last_message keys)
    else if last_message.name == some "TriageAgent" then
      route_triage_message cfg last_message keys
    else if last_message.name == some "Lumi" then
      some (route_lumi_message last_message keys).result
    else if isSageName last_message.name then
      some (route_sage_agent_message last_message keys)
    else
      some { result := none, reason := noRoutingReason }

/-- CustomGroupChatManager.should_terminate: true exactly when the latest
message is named TranslationAgent and the history holds more than 3
messages. -/
def should_terminate (chat_history : List ChatMessageContent) : BooleanResult :=
  match chat_history.getLast? with
  | none => { result := false, reason := "No messages in chat history." }
  | some last_message =>
    if last_message.name = some "TranslationAgent" ∧ 3 < chat_history.length then
      { result := true, reason := "Chat terminated after final translation." }
    else
      { result := false, reason := "Chat continues." }

/-- Whether a target_agent value passes the validation of
route_lumi_message: only a string naming one of the four valid agents
does. -/
def isValidTarget (j : Json) : Bool :=
  match j with
  | Json.str s => decide (s ∈ valid_agents)
  | _ => false

/-- The termination condition as the claim states it: the latest turn is the
Translator and it is not the first Translator turn of the exchange. Written
from the claim wording, for comparison with should_terminate. -/
def specIsTerminal (chat_history : List ChatMessageContent) : Bool :=
  match chat_history.getLast? with
  | none => false
  | some m =>
    m.name == some "TranslationAgent"
      && decide (2 ≤ (chat_history.filter (fun t => t.name == some "TranslationAgent")).length)

/-- The classification a caught failure receives in process_message: type is
"timeout" or "exception", message is the failure text. -/
structure FailureInfo where
  type : String
  message : String

def timeoutFailure : FailureInfo :=
  { type := "timeout", message := "Orchestration timed out" }

/-- What the environment does on one orchestration attempt of
process_message: the invoke call itself raises (this region of the source sits
inside a try that has a finally but no except); the awaited get times out; the
get raises some other exception; or the get returns a final message with the
given content. Runtime start and teardown are not failure sources here: the
teardown except clause swallows its own errors. -/
inductive AttemptOutcome where
  | invokeRaises : String → AttemptOutcome
  | timeout : AttemptOutcome
  | getRaises : String → AttemptOutcome
  | value : Content → AttemptOutcome

/-- The result-extraction step of process_message on the final message value:
json.loads, then ["response"], then ["final_answer"], then
.get("need_more_info", False); the error text is a representative message for
the raised exception. -/
def extractFinal (c : Content) : Except String (Json × Json) :=
  match c.parsed with
  | none => Except.error "json decode error"
  | some final_response =>
    match final_response.pyIdx "response" with
    | Except.error _ => Except.error "KeyError: response"
    | Except.ok resp =>
      match resp.pyIdx "final_answer" with
      | Except.error _ => Except.error "KeyError: final_answer"
      | Except.ok fa =>
        match resp.pyGet "need_more_info" (Json.bool false) with
        | Except.error _ => Except.error "AttributeError: get"
        | Except.ok nmi => Except.ok (fa, nmi)

/-- One attempt of the while loop: an outer Except.error is a fault that
propagates out of process_message uncaught (only the invoke region can
produce one); an inner Except.error is a failure caught by the two except
arms and classified; an inner ok is a successfully extracted answer. -/
def attemptEval (o : AttemptOutcome) : Except String (Except FailureInfo (Json × Json)) :=
  match o with
  | .invokeRaises msg => Except.error msg
  | .timeout => Except.ok (Except.error timeoutFailure)
  | .getRaises msg => Except.ok (Except.error { type := "exception", message := msg })
  | .value c =>
    match extractFinal c with
    | Except.ok p => Except.ok (Except.ok p)
    | Except.error msg =>
      Except.ok (Except.error { type := "exception", message := msg })

/-- What process_message returns when it returns normally: the extracted
final answer and need_more_info values, or after retry exhaustion the
structured error dict built from the last recorded failure (None when
max_retries is 0 and no attempt ran). -/
inductive ProcResult where
  | answer : Json → Json → ProcResult
  | errorResult : Option FailureInfo → ProcResult

/-- The while loop of process_message: i is the index of the next attempt,
fuel the remaining retries, last the last recorded failure; an outer
Except.error is an uncaught fault escaping process_message. -/
def processLoop (att : Nat → AttemptOutcome) :
    Nat → Nat → Option FailureInfo → Except String ProcResult
  | _, 0, last => Except.ok (ProcResult.errorResult last)
  | i, fuel + 1, _last =>
    match attemptEval (att i) with
    | Except.error msg => Except.error msg
    | Except.ok (Except.ok (fa, nmi)) => Except.ok (ProcResult.answer fa nmi)
    | Except.ok (Except.error f) => processLoop att (i + 1) fuel (some f)

/-- SemanticKernelOrchestrator.process_message, as a function of the
environment behavior att (what each successive attempt does) and the
configured max_retries. -/
def process_message (att : Nat → AttemptOutcome) (max_retries : Nat) :
    Except String ProcResult :=
  processLoop att 0 max_retries none

/- Concrete fixtures used by counterexamples and witnesses. -/

/-- A user message; its text is not valid JSON. -/
def userMsg (raw : String) : ChatMessageContent :=
  { role := "user", name := none, content := { raw := raw, parsed := none } }

/-- A message produced by the named agent. -/
def agentMsg (name : String) (c : Content) : ChatMessageContent :=
  { role := "assistant", name := some name, content := c }

/-- An inbound-shape Translator payload (a first translation of a user
question). -/
def translatorInContent : Content :=
  { raw := "\x7b\"origin_language\": \"en\", \"response\": \x7b\"current_question\": \"What is first aid?\"\x7d, \"target_language\": \"en\"\x7d"
    parsed := some (Json.obj
      [("origin_language", Json.str "en"),
       ("response", Json.obj [("current_question", Json.str "What is first aid?")]),
       ("target_language", Json.str "en")]) }

/-- An outbound-shape Translator payload (a final translation). -/
def translatorOutContent : Content :=
  { raw := "\x7b\"origin_language\": \"en\", \"source_language\": \"en\", \"response\": \x7b\"final_answer\": \"ok\", \"need_more_info\": \"False\"\x7d\x7d"
    parsed := some (Json.obj
      [("origin_language", Json.str "en"),
       ("source_language", Json.str "en"),
       ("response", Json.obj
         [("final_answer", Json.str "ok"), ("need_more_info", Json.str "False")])]) }

/-- A CQA triage payload with the given top-answer confidence. -/
def cqaContent (raw : String) (q : ℚ) : Content :=
  { raw := raw
    parsed := some (Json.obj
      [("type", Json.str "cqa_result"),
       ("response", Json.obj
         [("answers", Json.arr [Json.obj [("confidenceScore", Json.num q)]])])]) }

def cqaHiContent : Content :=
  cqaContent "\x7b\"type\": \"cqa_result\", \"response\": \x7b\"answers\": [\x7b\"confidenceScore\": 0.9\x7d]\x7d\x7d" (9 / 10)

def cqaLoContent : Content :=
  cqaContent "\x7b\"type\": \"cqa_result\", \"response\": \x7b\"answers\": [\x7b\"confidenceScore\": 0.5\x7d]\x7d\x7d" (1 / 2)

/-- A CLU triage payload whose top intent has confidence 0.3, well under the
CLU threshold. -/
def cluLoContent : Content :=
  { raw := "\x7b\"type\": \"clu_result\", \"response\": \x7b\"result\": \x7b\"conversations\": [\x7b\"intents\": [\x7b\"name\": \"RecordabilityCheck\", \"confidenceScore\": 0.3\x7d]\x7d]\x7d\x7d\x7d"
    parsed := some (Json.obj
      [("type", Json.str "clu_result"),
       ("response", Json.obj
         [("result", Json.obj
           [("conversations", Json.arr
             [Json.obj
               [("intents", Json.arr
                 [Json.obj
                   [("name", Json.str "RecordabilityCheck"),
                    ("confidenceScore", Json.num (3 / 10))]])]])])])]) }

/-- A triage payload that is valid JSON but whose type is neither cqa_result
nor clu_result. -/
def triageUnknownTypeContent : Content :=
  { raw := "\x7b\"type\": \"other_result\"\x7d"
    parsed := some (Json.obj [("type", Json.str "other_result")]) }

/-- A Lumi payload naming an unknown target whose iri_domains value is a
number, which str.join rejects. -/
def lumiBadIriContent : Content :=
  { raw := "\x7b\"target_agent\": \"UnknownAgent\", \"iri_domains\": 42\x7d"
    parsed := some (Json.obj
      [("target_agent", Json.str "UnknownAgent"), ("iri_domains", Json.num 42)]) }

/-- A Lumi payload naming an unknown target, with iri_domains absent. -/
def lumiUnknownContent : Content :=
  { raw := "\x7b\"target_agent\": \"UnknownAgent\"\x7d"
    parsed := some (Json.obj [("target_agent", Json.str "UnknownAgent")]) }

/-- A Lumi payload naming SciencesAgent with a string-list iri_domains. -/
def lumiSciencesContent : Content :=
  { raw := "\x7b\"target_agent\": \"SciencesAgent\", \"iri_domains\": [\"research\"]\x7d"
    parsed := some (Json.obj
      [("target_agent", Json.str "SciencesAgent"),
       ("iri_domains", Json.arr [Json.str "research"])]) }

/-- A Lumi content that is the valid JSON text 5: json.loads succeeds with
the number 5, and 5.get then raises AttributeError. -/
def lumiNumberContent : Content :=
  { raw := "5", parsed := some (Json.num 5) }

/-- A Lumi content that is not valid JSON. -/
def notJsonContent : Content :=
  { raw := "plain text, not json", parsed := none }

/-- A final message whose response carries final_answer but no
need_more_info. -/
def missingNmiContent : Content :=
  { raw := "\x7b\"response\": \x7b\"final_answer\": \"hi\"\x7d\x7d"
    parsed := some (Json.obj
      [("response", Json.obj [("final_answer", Json.str "hi")])]) }

/-- A responder payload declaring need_more_info = "True". -/
def nmiTrueContent : Content :=
  { raw := "\x7b\"response\": \"Which body part was injured?\", \"need_more_info\": \"True\"\x7d"
    parsed := some (Json.obj
      [("response", Json.str "Which body part was injured?"),
       ("need_more_info", Json.str "True")]) }

/-- A log whose latest turn is the first Translator turn (it follows only
user turns, no Domain Responder and no FAQ answer), yet the history is longer
than 3 messages. -/
def cexLog1 : List ChatMessageContent :=
  [userMsg "hello", userMsg "are you there", userMsg "still waiting",
   agentMsg "TranslationAgent" translatorInContent]

/-- A canonical 4-turn direct-FAQ exchange: user, inbound translation, triage
FAQ answer, outbound translation. -/
def termLog : List ChatMessageContent :=
  [userMsg "What is first aid?", agentMsg "TranslationAgent" translatorInContent,
   agentMsg "TriageAgent" cqaHiContent, agentMsg "TranslationAgent" translatorOutContent]

/-- A log whose latest turn is a Triage payload of unknown type. -/
def cexLog3 : List ChatMessageContent :=
  [userMsg "question", agentMsg "TriageAgent" triageUnknownTypeContent]

/-- A log whose latest turn is a Lumi payload that is not valid JSON. -/
def w3Log : List ChatMessageContent :=
  [userMsg "question", agentMsg "Lumi" notJsonContent]

/-- A log ending in a responder turn that requests clarification. -/
def clarifyLog : List ChatMessageContent :=
  [userMsg "Is this recordable?", agentMsg "GovernanceAgent" nmiTrueContent]

/- Helper lemmas shared by the claim theorems. -/

/-- The registry lookup of a registered name finds exactly that name. -/
theorem findAgent_mem : ∀ (keys : List String) (x : String), x ∈ keys → findAgent keys x = some x := by
  intro keys x
  induction keys with
  | nil => intro h; cases h
  | cons a as ih =>
    intro h
    by_cases hax : (a == x) = true
    · have : a = x := by simpa using hax
      subst this
      simp [findAgent, List.find?]
    · have hx : x ∈ as := by
        rcases List.mem_cons.mp h with h1 | h1
        · exact absurd (by simp [h1]) hax
        · exact h1
      have := ih hx
      simpa [findAgent, List.find?, hax] using this

/-- The string-equality view used by the payload dispatch. -/
theorem isStrEq_iff (j : Json) (s : String) : j.isStrEq s = true ↔ j = Json.str s := by
  cases j <;> simp [Json.isStrEq]

/-- If every attempt up to the fuel fails with a caught, classified failure,
the loop consumes all attempts and reports the last classification. -/
theorem processLoop_allFail (att : Nat → AttemptOutcome) (f : Nat → FailureInfo) :
    ∀ (fuel i : Nat) (last : Option FailureInfo), 0 < fuel →
      (∀ k, k < fuel → attemptEval (att (i + k)) = Except.ok (Except.error (f (i + k)))) →
      processLoop att i fuel last =
        Except.ok (ProcResult.errorResult (some (f (i + fuel - 1)))) := by
  intro fuel
  induction fuel with
  | zero => intro i last hpos _; exact absurd hpos (by omega)
  | succ n ih =>
    intro i last hpos hall
    have h0 : attemptEval (att i) = Except.ok (Except.error (f i)) := by
      simpa using hall 0 (Nat.succ_pos n)
    rw [processLoop, h0]
    rcases Nat.eq_zero_or_pos n with hn | hn
    · subst hn
      simp [processLoop]
    · have hrec := ih (i + 1) (some (f i)) hn (by
        intro k hk
        have h1 := hall (k + 1) (by omega)
        have he : i + (k + 1) = i + 1 + k := by omega
        rwa [he] at h1)
      show processLoop att (i + 1) n (some (f i)) = _
      rw [hrec]
      have : i + 1 + n - 1 = i + (n + 1) - 1 := by omega
      rw [this]

/-- A successful .get read implies the receiver is a dict and the value is
the looked-up field or the default. -/
theorem pyGet_ok (p : Json) (k : String) (d v : Json) (h : p.pyGet k d = Except.ok v) :
    ∃ fields, p = Json.obj fields ∧ (List.lookup k fields).getD d = v := by
  cases p with
  | obj fields =>
    refine ⟨fields, rfl, ?_⟩
    simpa [Json.pyGet] using h
  | null => simp [Json.pyGet] at h
  | bool b => simp [Json.pyGet] at h
  | num q => simp [Json.pyGet] at h
  | str s => simp [Json.pyGet] at h
  | arr xs => simp [Json.pyGet] at h

/-- If a lookup defaulted with null produces a string, the field was
present with that string. -/
theorem lookup_of_getD_str (fields : List (String × Json)) (k : String) (s : String)
    (h : (List.lookup k fields).getD Json.null = Json.str s) :
    List.lookup k fields = some (Json.str s) := by
  cases hl : List.lookup k fields with
  | none => rw [hl] at h; simp at h
  | some w => rw [hl] at h; simpa using h

/-- Reduction of route_lumi_message on a dict payload whose target fails
validation and whose iri_domains value joins: the target is substituted by
GovernanceAgent and the substitution is logged. -/
theorem route_lumi_unknown (keys : List String) (c : Content) (fields : List (String × Json))
    (hp : c.parsed = some (Json.obj fields))
    (hta : isValidTarget ((List.lookup "target_agent" fields).getD Json.null) = false)
    (s : String)
    (hs : pyJoin ", " ((List.lookup "iri_domains" fields).getD (Json.arr [])) = Except.ok s) :
    route_lumi_message (agentMsg "Lumi" c) keys =
      { result := { result := findAgent keys "GovernanceAgent"
                    reason := "Routing to " ++ "GovernanceAgent" ++ " for " ++ s
                      ++ " domain expertise." }
        logs := [LumiLog.routing ((List.lookup "target_agent" fields).getD Json.null)
                   ((List.lookup "iri_domains" fields).getD (Json.arr [])),
                 LumiLog.substitution ((List.lookup "target_agent" fields).getD Json.null)] } := by
  have hload : loads (agentMsg "Lumi" c).content = Except.ok (Json.obj fields) := by
    simp [loads, agentMsg, hp]
  unfold route_lumi_message
  rw [hload]
  cases hv : (List.lookup "target_agent" fields).getD Json.null with
  | str s2 =>
    rw [hv] at hta
    have hnotmem : s2 ∉ valid_agents := by simpa [isValidTarget] using hta
    simp [hv, hnotmem, lumiFinish, hs]
  | null => simp [hv, lumiFinish, hs]
  | bool b => simp [hv, lumiFinish, hs]
  | num q => simp [hv, lumiFinish, hs]
  | arr xs => simp [hv, lumiFinish, hs]
  | obj fs2 => simp [hv, lumiFinish, hs]

/-- Reduction of route_lumi_message on a dict payload whose target passes
validation and whose iri_domains value joins: the named responder is kept. -/
theorem route_lumi_valid (keys : List String) (c : Content) (fields : List (String × Json))
    (hp : c.parsed = some (Json.obj fields)) (s2 : String)
    (hv : (List.lookup "target_agent" fields).getD Json.null = Json.str s2)
    (hmem : s2 ∈ valid_agents) (s : String)
    (hs : pyJoin ", " ((List.lookup "iri_domains" fields).getD (Json.arr [])) = Except.ok s) :
    route_lumi_message (agentMsg "Lumi" c) keys =
      { result := { result := findAgent keys s2
                    reason := "Routing to " ++ s2 ++ " for " ++ s ++ " domain expertise." }
        logs := [LumiLog.routing ((List.lookup "target_agent" fields).getD Json.null)
                   ((List.lookup "iri_domains" fields).getD (Json.arr []))] } := by
  have hload : loads (agentMsg "Lumi" c).content = Except.ok (Json.obj fields) := by
    simp [loads, agentMsg, hp]
  unfold route_lumi_message
  rw [hload]
  simp [hv, hmem, lumiFinish, hs]

/-- C1 (counterexample): the claim says should_terminate is true iff the
latest turn is the Translator and it is not the first Translator turn of the
exchange. On cexLog1 the latest turn is the first and only Translator turn
and it followed a plain user turn (no Domain Responder, no FAQ answer), yet
should_terminate is true because the history is longer than 3 messages. -/
theorem C1_counterexample :
    (should_terminate cexLog1).result = true ∧ specIsTerminal cexLog1 = false :=
  ⟨rfl, rfl⟩

/-- C1 (amended): should_terminate is exactly the length heuristic of the
source: true iff the latest message is named TranslationAgent and the history
holds more than 3 messages. On canonical exchange logs this coincides with
the not-first-Translator-turn condition, but not on every conversation
log. -/
theorem C1_terminate_iff (chat_history : List ChatMessageContent) :
    (should_terminate chat_history).result = true ↔
      (∃ m, chat_history.getLast? = some m ∧ m.name = some "TranslationAgent")
        ∧ 3 < chat_history.length := by
  unfold should_terminate
  rcases h : chat_history.getLast? with _ | m
  · simp [h]
  · simp only [h]
    by_cases hc : m.name = some "TranslationAgent" ∧ 3 < chat_history.length
    · rw [if_pos hc]
      simp [hc.1, hc.2]
    · rw [if_neg hc]
      constructor
      · intro hfalse; exact absurd hfalse (by simp)
      · rintro ⟨⟨m2, hm2, hname⟩, hlen⟩
        injection hm2 with hm2e
        subst hm2e
        exact absurd ⟨hname, hlen⟩ hc

/-- C1 (amended, witness): the canonical 4-turn direct-FAQ exchange is
terminal. -/
theorem C1_terminate_iff_witness : (should_terminate termLog).result = true :=
  (C1_terminate_iff termLog).mpr
    ⟨⟨agentMsg "TranslationAgent" translatorOutContent, rfl, rfl⟩, by decide⟩

/-- C2 (counterexample): the claim says no failure during an attempt ever
propagates as a raw fault out of process_message. The orchestration.invoke
call sits inside a try block that has a finally but no except arm, so an
exception raised by invoke on the very first attempt escapes process_message
uncaught instead of being classified or retried. -/
theorem C2_counterexample :
    process_message (fun _ => AttemptOutcome.invokeRaises "invoke failed") 3 =
      Except.error "invoke failed" :=
  rfl

/-- C2 (amended): failures of the awaited result (timeout, get exception, or
result parsing) are caught and classified; when every one of the max_retries
attempts fails that way, process_message runs exactly max_retries attempts
and returns the structured error result carrying the last failure
classification and message. Failures raised by the invoke call itself are
outside this guarantee. -/
theorem C2_retry_exhaustion (att : Nat → AttemptOutcome) (max_retries : Nat)
    (f : Nat → FailureInfo) (hpos : 0 < max_retries)
    (hall : ∀ k, k < max_retries → attemptEval (att k) = Except.ok (Except.error (f k))) :
    process_message att max_retries =
      Except.ok (ProcResult.errorResult (some (f (max_retries - 1)))) := by
  have := processLoop_allFail att f max_retries 0 none hpos
    (by intro k hk; simpa using hall k hk)
  simpa [process_message] using this

/-- C2 (amended, witness): three timeouts in a row exhaust the retries and
yield the structured timeout error. -/
theorem C2_retry_exhaustion_witness :
    process_message (fun _ => AttemptOutcome.timeout) 3 =
      Except.ok (ProcResult.errorResult (some timeoutFailure)) :=
  C2_retry_exhaustion (fun _ => AttemptOutcome.timeout) 3 (fun _ => timeoutFailure)
    (by decide) (fun _ _ => rfl)

/-- C8 (confirmed): select_next_agent is a pure function of the thresholds,
the ordered log, and the registry keys; evaluating it twice on equal inputs
gives equal routing decisions. The source reads nothing else: the module
thresholds are fixed at import time and the method mutates no state. -/
theorem C8_determinism (cfg : OrchConfig) (h1 h2 : List ChatMessageContent)
    (k1 k2 : List String) (hh : h1 = h2) (hk : k1 = k2) :
    select_next_agent cfg h1 k1 = select_next_agent cfg h2 k2 := by
  rw [hh, hk]

/-- C8 (witness): repeated evaluation on a concrete log agrees. -/
theorem C8_determinism_witness :
    select_next_agent defaultConfig termLog agentKeys =
      select_next_agent defaultConfig termLog agentKeys :=
  C8_determinism defaultConfig termLog termLog agentKeys agentKeys rfl rfl

/-- C10 (confirmed): filter_results is total (it never raises): on the empty
history it returns the fixed assistant sentence, and on any nonempty history
it returns the last message content unchanged as the final response. -/
theorem C10_filter_results :
    filter_results [] =
      { result := { role := "assistant", name := none, content := noMessagesContent }
        reason := "Chat history is empty." }
    ∧ (∀ (chat_history : List ChatMessageContent) (m : ChatMessageContent),
        chat_history.getLast? = some m →
        filter_results chat_history =
          { result := { role := "assistant", name := none, content := m.content }
            reason := lastResponseReason }) := by
  refine ⟨rfl, ?_⟩
  intro hist m h
  unfold filter_results
  rw [h]

/-- C10 (witness): on a concrete nonempty history the last content is passed
through unchanged. -/
theorem C10_filter_results_witness :
    filter_results clarifyLog =
      { result := { role := "assistant", name := none, content := nmiTrueContent }
        reason := lastResponseReason } :=
  C10_filter_results.2 clarifyLog (agentMsg "GovernanceAgent" nmiTrueContent) rfl

/-- C3 (counterexample): the claim says a Router payload whose type is
neither a FAQ result nor an intent result makes select_next_agent return no
next speaker together with an explicit routing-failure reason. On cexLog3
(latest turn: a TriageAgent payload of type other_result, valid JSON) the
source falls off the end of route_triage_message and select_next_agent
returns Python None: no StringResult, hence no reason, is returned at
all. -/
theorem C3_counterexample :
    select_next_agent defaultConfig cexLog3 agentKeys = none :=
  rfl

/-- C3 (amended): when the latest participant payload fails json.loads (for
the Translator branch this is observed only while the history is still short
enough to parse it), select_next_agent returns a StringResult with no next
speaker and one of the explicit error reasons; but a parseable Router payload
of unknown type yields no result value at all (see the counterexample). -/
theorem C3_malformed_payload (cfg : OrchConfig) (chat_history : List ChatMessageContent)
    (keys : List String) (m : ChatMessageContent)
    (hlast : chat_history.getLast? = some m)
    (hrole : m.role ≠ "user")
    (hname : m.name = some "TriageAgent" ∨ m.name = some "Lumi"
      ∨ (∃ n, m.name = some n ∧ n ∈ valid_agents)
      ∨ (m.name = some "TranslationAgent" ∧ chat_history.length ≤ 3))
    (hbad : m.content.parsed = none) :
    ∃ sr, select_next_agent cfg chat_history keys = some sr
      ∧ sr.result = none ∧ sr.reason ∈ routingErrorReasons := by
  have hrole2 : (m.role == "user") = false := by
    simp [hrole]
  have hload : loads m.content = Except.error () := by simp [loads, hbad]
  rcases hname with hn | hn | ⟨n, hn, hmem⟩ | ⟨hn, hlen⟩
  · refine ⟨{ result := none, reason := triageErrorReason }, ?_, rfl,
      by simp [routingErrorReasons]⟩
    unfold select_next_agent
    rw [hlast]
    simp [hrole2, hn, route_triage_message, hload]
  · refine ⟨{ result := none, reason := lumiErrorReason }, ?_, rfl,
      by simp [routingErrorReasons]⟩
    unfold select_next_agent
    rw [hlast]
    simp [hrole2, hn, route_lumi_message, hload]
  · simp only [valid_agents, List.mem_cons, List.mem_singleton] at hmem
    rcases hmem with rfl | rfl | rfl | rfl | h0
    · have hs4 : isSageName (some "SciencesAgent") = true := by decide
      refine ⟨{ result := none, reason := sageErrorReason }, ?_, rfl,
        by simp [routingErrorReasons]⟩
      unfold select_next_agent
      rw [hlast]
      simp [hrole2, hn, hs4, route_sage_agent_message, hload]
    · have hs4 : isSageName (some "GovernanceAgent") = true := by decide
      refine ⟨{ result := none, reason := sageErrorReason }, ?_, rfl,
        by simp [routingErrorReasons]⟩
      unfold select_next_agent
      rw [hlast]
      simp [hrole2, hn, hs4, route_sage_agent_message, hload]
    · have hs4 : isSageName (some "AnalyticsAgent") = true := by decide
      refine ⟨{ result := none, reason := sageErrorReason }, ?_, rfl,
        by simp [routingErrorReasons]⟩
      unfold select_next_agent
      rw [hlast]
      simp [hrole2, hn, hs4, route_sage_agent_message, hload]
    · have hs4 : isSageName (some "ExperienceAgent") = true := by decide
      refine ⟨{ result := none, reason := sageErrorReason }, ?_, rfl,
        by simp [routingErrorReasons]⟩
      unfold select_next_agent
      rw [hlast]
      simp [hrole2, hn, hs4, route_sage_agent_message, hload]
    · cases h0
  · refine ⟨{ result := none, reason := translationErrorReason }, ?_, rfl,
      by simp [routingErrorReasons]⟩
    unfold select_next_agent
    rw [hlast]
    have hlen2 : ¬ 3 < chat_history.length := by omega
    simp [hrole2, hn, hlen2, route_translation_message, hload]

/-- C3 (amended, witness): a Lumi turn whose payload is not valid JSON yields
an explicit no-speaker error result. -/
theorem C3_malformed_payload_witness :
    ∃ sr, select_next_agent defaultConfig w3Log agentKeys = some sr
      ∧ sr.result = none ∧ sr.reason ∈ routingErrorReasons :=
  C3_malformed_payload defaultConfig w3Log agentKeys (agentMsg "Lumi" notJsonContent)
    rfl (by decide) (Or.inr (Or.inl rfl)) rfl

/-- C4 (confirmed): on a Router turn with a parseable payload, a FAQ
(cqa_result) whose top answer confidence is above the CQA threshold routes to
the TranslationAgent, a FAQ below the threshold routes to Lumi, and a CLU
(clu_result) payload routes to Lumi whatever its confidence: low-confidence
intent results are never rejected. -/
theorem C4_triage_routing (cfg : OrchConfig) (keys : List String) (c : Content) (p : Json)
    (hT : "TranslationAgent" ∈ keys) (hL : "Lumi" ∈ keys)
    (hp : c.parsed = some p) :
    ((p.pyGet "type" Json.null = Except.ok (Json.str "cqa_result")) →
      ∀ q : ℚ, cqaScoreQ p = Except.ok q →
        (cfg.cqa_confidence < q →
          route_triage_message cfg (agentMsg "TriageAgent" c) keys =
            some { result := some "TranslationAgent", reason := cqaHighReason })
        ∧ (q < cfg.cqa_confidence →
          route_triage_message cfg (agentMsg "TriageAgent" c) keys =
            some { result := some "Lumi", reason := cqaLowReason }))
    ∧ ((p.pyGet "type" Json.null = Except.ok (Json.str "clu_result")) →
      ∀ q : ℚ, cluScoreQ p = Except.ok q →
        ∃ r, route_triage_message cfg (agentMsg "TriageAgent" c) keys =
          some { result := some "Lumi", reason := r } ∧ r ∈ cluRouteReasons) := by
  have hload : loads (agentMsg "TriageAgent" c).content = Except.ok p := by
    simp [loads, agentMsg, hp]
  constructor
  · intro htype q hq
    have hbranch :
        route_triage_message cfg (agentMsg "TriageAgent" c) keys =
          if cfg.cqa_confidence ≤ q then
            some { result := findAgent keys "TranslationAgent", reason := cqaHighReason }
          else
            some { result := findAgent keys "Lumi", reason := cqaLowReason } := by
      simp [route_triage_message, hload, htype, hq, Json.isStrEq]
    constructor
    · intro hlt
      rw [hbranch, if_pos (le_of_lt hlt), findAgent_mem keys _ hT]
    · intro hlt
      rw [hbranch, if_neg (not_le.mpr hlt), findAgent_mem keys _ hL]
  · intro htype q hq
    have hbranch :
        route_triage_message cfg (agentMsg "TriageAgent" c) keys =
          if cfg.confidence_threshold ≤ q then
            some { result := findAgent keys "Lumi", reason := cluHighReason }
          else
            some { result := findAgent keys "Lumi", reason := cluLowReason } := by
      simp [route_triage_message, hload, htype, hq, Json.isStrEq]
    by_cases hth : cfg.confidence_threshold ≤ q
    · exact ⟨cluHighReason, by rw [hbranch, if_pos hth, findAgent_mem keys _ hL],
        by simp [cluRouteReasons]⟩
    · exact ⟨cluLowReason, by rw [hbranch, if_neg hth, findAgent_mem keys _ hL],
        by simp [cluRouteReasons]⟩

/-- C4 (witness): concrete high-confidence FAQ, low-confidence FAQ, and
low-confidence CLU payloads under the default thresholds. -/
theorem C4_triage_routing_witness :
    route_triage_message defaultConfig (agentMsg "TriageAgent" cqaHiContent) agentKeys =
      some { result := some "TranslationAgent", reason := cqaHighReason }
    ∧ route_triage_message defaultConfig (agentMsg "TriageAgent" cqaLoContent) agentKeys =
      some { result := some "Lumi", reason := cqaLowReason }
    ∧ ∃ r, route_triage_message defaultConfig (agentMsg "TriageAgent" cluLoContent) agentKeys =
      some { result := some "Lumi", reason := r } ∧ r ∈ cluRouteReasons := by
  refine ⟨?_, ?_, ?_⟩
  · exact ((C4_triage_routing defaultConfig agentKeys cqaHiContent _ (by decide) (by decide)
      rfl).1 rfl (9 / 10) rfl).1 (by norm_num [defaultConfig])
  · exact ((C4_triage_routing defaultConfig agentKeys cqaLoContent _ (by decide) (by decide)
      rfl).1 rfl (1 / 2) rfl).2 (by norm_num [defaultConfig])
  · exact (C4_triage_routing defaultConfig agentKeys cluLoContent _ (by decide) (by decide)
      rfl).2 rfl (3 / 10) rfl

/-- C5 (counterexample): the claim says a parseable Dispatcher payload whose
target_agent names an unknown responder never produces a routing result of
none. On lumiBadIriContent the target UnknownAgent is outside the four known
responders and is substituted (the substitution is logged), yet the join of
the numeric iri_domains value in the reason string raises, the exception is
caught, and the routing result is none. -/
theorem C5_counterexample :
    (route_lumi_message (agentMsg "Lumi" lumiBadIriContent) agentKeys).result.result = none
    ∧ LumiLog.substitution (Json.str "UnknownAgent")
        ∈ (route_lumi_message (agentMsg "Lumi" lumiBadIriContent) agentKeys).logs := by
  refine ⟨rfl, ?_⟩
  show LumiLog.substitution (Json.str "UnknownAgent")
    ∈ [LumiLog.routing (Json.str "UnknownAgent") (Json.num 42),
       LumiLog.substitution (Json.str "UnknownAgent"), LumiLog.failure]
  exact List.Mem.tail _ (List.Mem.head _)

/-- C5 (amended): on a parseable dict Dispatcher payload whose target_agent
fails validation, provided the iri_domains value (default []) is joinable
into the reason string, the next speaker is the default responder
GovernanceAgent and the substitution is logged. -/
theorem C5_unknown_target (keys : List String) (c : Content) (fields : List (String × Json))
    (hg : "GovernanceAgent" ∈ keys)
    (hp : c.parsed = some (Json.obj fields))
    (hta : isValidTarget ((List.lookup "target_agent" fields).getD Json.null) = false)
    (hjoin : ∃ s, pyJoin ", " ((List.lookup "iri_domains" fields).getD (Json.arr []))
      = Except.ok s) :
    (route_lumi_message (agentMsg "Lumi" c) keys).result.result = some "GovernanceAgent"
    ∧ LumiLog.substitution ((List.lookup "target_agent" fields).getD Json.null)
        ∈ (route_lumi_message (agentMsg "Lumi" c) keys).logs := by
  obtain ⟨s, hs⟩ := hjoin
  rw [route_lumi_unknown keys c fields hp hta s hs]
  exact ⟨findAgent_mem keys _ hg, List.Mem.tail _ (List.Mem.head _)⟩

/-- C5 (amended, witness): a Dispatcher payload naming UnknownAgent with no
iri_domains routes to GovernanceAgent and logs the substitution. -/
theorem C5_unknown_target_witness :
    (route_lumi_message (agentMsg "Lumi" lumiUnknownContent) agentKeys).result.result =
      some "GovernanceAgent"
    ∧ LumiLog.substitution (Json.str "UnknownAgent")
        ∈ (route_lumi_message (agentMsg "Lumi" lumiUnknownContent) agentKeys).logs :=
  C5_unknown_target agentKeys lumiUnknownContent
    [("target_agent", Json.str "UnknownAgent")] (by decide) rfl (by decide) ⟨"", rfl⟩

/-- C6 (counterexample): the claim says a terminal payload missing either
final_answer or need_more_info is a hard error. On missingNmiContent the
response carries final_answer but no need_more_info, and process_message
succeeds on the first attempt, silently defaulting need_more_info to False
instead of failing. -/
theorem C6_counterexample :
    process_message (fun _ => AttemptOutcome.value missingNmiContent) 3 =
      Except.ok (ProcResult.answer (Json.str "hi") (Json.bool false)) :=
  rfl

/-- C6 (amended): a missing response or final_answer field raises, is caught,
and is classified as an exception failure for the attempt (a hard error, fed
into the retry budget); a missing need_more_info field is not an error: the
.get read silently defaults it to Python False. -/
theorem C6_result_extraction (c : Content) (fr : Json) (hp : c.parsed = some fr) :
    (fr.pyIdx "response" = Except.error () →
      attemptEval (AttemptOutcome.value c) =
        Except.ok (Except.error { type := "exception", message := "KeyError: response" }))
    ∧ (∀ resp : Json, fr.pyIdx "response" = Except.ok resp →
        (resp.pyIdx "final_answer" = Except.error () →
          attemptEval (AttemptOutcome.value c) =
            Except.ok (Except.error { type := "exception", message := "KeyError: final_answer" }))
        ∧ (∀ (fa : Json) (fields2 : List (String × Json)),
            resp = Json.obj fields2 → resp.pyIdx "final_answer" = Except.ok fa →
            attemptEval (AttemptOutcome.value c) =
              Except.ok (Except.ok
                (fa, (List.lookup "need_more_info" fields2).getD (Json.bool false))))) := by
  refine ⟨?_, ?_⟩
  · intro hr
    simp [attemptEval, extractFinal, hp, hr]
  · intro resp hr
    refine ⟨?_, ?_⟩
    · intro hfa
      simp [attemptEval, extractFinal, hp, hr, hfa]
    · intro fa fields2 hobj hfa
      subst hobj
      simp [attemptEval, extractFinal, hp, hr, hfa, Json.pyGet]

/-- C6 (amended, witness): extraction on the payload without need_more_info
returns the answer paired with the defaulted False. -/
theorem C6_result_extraction_witness :
    attemptEval (AttemptOutcome.value missingNmiContent) =
      Except.ok (Except.ok (Json.str "hi", Json.bool false)) :=
  ((C6_result_extraction missingNmiContent _ rfl).2
      (Json.obj [("final_answer", Json.str "hi")]) rfl).2
    (Json.str "hi") [("final_answer", Json.str "hi")] rfl rfl

/-- C7 (confirmed): should_request_user_input is true exactly when the latest
turn exists and its payload is a JSON dict whose need_more_info field is the
string "True". The check is its own method, independent of
select_next_agent, and the embedding is a pure function of the log: it
appends and mutates nothing. -/
theorem C7_needs_input_iff (chat_history : List ChatMessageContent) :
    (should_request_user_input chat_history).result = true ↔
      ∃ m fields, chat_history.getLast? = some m
        ∧ m.content.parsed = some (Json.obj fields)
        ∧ List.lookup "need_more_info" fields = some (Json.str "True") := by
  constructor
  · intro htrue
    unfold should_request_user_input at htrue
    rcases h : chat_history.getLast? with _ | m
    · rw [h] at htrue; simp [noUserInput] at htrue
    · rw [h] at htrue
      rcases hp : m.content.parsed with _ | p
      · simp [loads, hp, noUserInput] at htrue
      · simp only [loads, hp] at htrue
        rcases hg : p.pyGet "need_more_info" Json.null with _ | v
        · simp [hg, noUserInput] at htrue
        · simp only [hg] at htrue
          by_cases hs : v.isStrEq "True" = true
          · obtain ⟨fields, hobj, hgetd⟩ := pyGet_ok p "need_more_info" Json.null v hg
            subst hobj
            have hveq : v = Json.str "True" := (isStrEq_iff v "True").mp hs
            refine ⟨m, fields, rfl, hp, ?_⟩
            exact lookup_of_getD_str fields "need_more_info" "True" (hgetd.trans hveq)
          · simp [hs, noUserInput] at htrue
  · rintro ⟨m, fields, h, hp, hl⟩
    unfold should_request_user_input
    rw [h]
    simp [loads, hp, Json.pyGet, hl, Json.isStrEq]

/-- C7 (witness): a responder turn declaring need_more_info = "True"
triggers the clarification check. -/
theorem C7_needs_input_iff_witness :
    (should_request_user_input clarifyLog).result = true :=
  (C7_needs_input_iff clarifyLog).mpr
    ⟨agentMsg "GovernanceAgent" nmiTrueContent,
     [("response", Json.str "Which body part was injured?"),
      ("need_more_info", Json.str "True")],
     rfl, rfl, rfl⟩

/-- C9 (counterexample): the claim says a routing result of none can arise
from a Lumi turn only when its payload is not valid JSON. The content 5 is
valid JSON (it parses to the number 5), yet 5.get raises AttributeError and
the routing result is none. -/
theorem C9_counterexample :
    lumiNumberContent.parsed = some (Json.num 5)
    ∧ (route_lumi_message (agentMsg "Lumi" lumiNumberContent) agentKeys).result.result = none :=
  ⟨rfl, rfl⟩

/-- C9 (amended): on a Lumi payload that is a JSON dict whose iri_domains
value (default []) is joinable, route_lumi_message selects one of the four
known responder names, GovernanceAgent whenever target_agent is absent, null,
or any non-responder value; none arises only from a payload that is not
valid JSON, is not a dict, has an unjoinable iri_domains value, or from a
responder missing from the registry. -/
theorem C9_lumi_totality (keys : List String) (c : Content) (fields : List (String × Json))
    (hks : ∀ a, a ∈ valid_agents → a ∈ keys)
    (hp : c.parsed = some (Json.obj fields))
    (hjoin : ∃ s, pyJoin ", " ((List.lookup "iri_domains" fields).getD (Json.arr []))
      = Except.ok s) :
    ∃ t, (route_lumi_message (agentMsg "Lumi" c) keys).result.result = some t
      ∧ t ∈ valid_agents
      ∧ (isValidTarget ((List.lookup "target_agent" fields).getD Json.null) = false →
          t = "GovernanceAgent") := by
  obtain ⟨s, hs⟩ := hjoin
  by_cases hv : isValidTarget ((List.lookup "target_agent" fields).getD Json.null) = true
  · obtain ⟨s2, hs2, hmem⟩ : ∃ s2,
        (List.lookup "target_agent" fields).getD Json.null = Json.str s2
          ∧ s2 ∈ valid_agents := by
      rcases he : (List.lookup "target_agent" fields).getD Json.null with _ | b | q | s3 | xs | fs2
      · rw [he] at hv; simp [isValidTarget] at hv
      · rw [he] at hv; simp [isValidTarget] at hv
      · rw [he] at hv; simp [isValidTarget] at hv
      · rw [he] at hv
        refine ⟨s3, rfl, ?_⟩
        simpa [isValidTarget] using hv
      · rw [he] at hv; simp [isValidTarget] at hv
      · rw [he] at hv; simp [isValidTarget] at hv
    refine ⟨s2, ?_, hmem, ?_⟩
    · rw [route_lumi_valid keys c fields hp s2 hs2 hmem s hs]
      exact findAgent_mem keys s2 (hks s2 hmem)
    · intro hf
      rw [hv] at hf
      cases hf
  · have hf : isValidTarget ((List.lookup "target_agent" fields).getD Json.null) = false := by
      simpa using hv
    refine ⟨"GovernanceAgent", ?_, by simp [valid_agents], fun _ => rfl⟩
    rw [route_lumi_unknown keys c fields hp hf s hs]
    exact findAgent_mem keys _ (hks _ (by simp [valid_agents]))

/-- C9 (amended, witness): a Lumi payload naming SciencesAgent with a
string-list iri_domains selects a known responder. -/
theorem C9_lumi_totality_witness :
    ∃ t, (route_lumi_message (agentMsg "Lumi" lumiSciencesContent) agentKeys).result.result =
        some t
      ∧ t ∈ valid_agents
      ∧ (isValidTarget (Json.str "SciencesAgent") = false → t = "GovernanceAgent") :=
  C9_lumi_totality agentKeys lumiSciencesContent
    [("target_agent", Json.str "SciencesAgent"), ("iri_domains", Json.arr [Json.str "research"])]
    (by decide) rfl ⟨"research", rfl⟩

end Orchestrator
